import Mathlib

/-!
Verification of the project-lifecycle orchestrator of `runpod-python`
(`runpod/cli/groups/project/functions.py`).

The Python functions are shallowly embedded: each operation becomes a pure
Lean function from an oracle `World` (the remote collaborators: the pod API,
the SSH transport, template/endpoint creation) and a `Config` to a result
together with a trace of the externally visible effects (`List Event`).
The bodies follow the Python source line by line; helper functions of the
repository that are not part of the analysed source (`get_project_pod`,
`attempt_pod_launch`, the SSH transport) are oracles in `World`, with their
observable calls recorded as events.
-/

/-- A remote pod as observed through the API: its id, the `desiredStatus`
field (absent or a status string) and the `runtime` descriptor (null until
the pod is actually running; its contents are irrelevant here). -/
structure Pod where
  id : String
  desiredStatus : Option String
  runtime : Option Unit
deriving Repr, DecidableEq

/-- The `[project]` table of `runpod.toml` as read by the orchestrator.
`gpu` is the optional single-GPU override (read with a None-defaulted get);
`env_vars` is the environment-variable mapping (association list, first
match wins, mirroring a Python dict with distinct keys). -/
structure ProjectConfig where
  uuid : String
  name : String
  base_image : String
  gpu_types : List String
  gpu : Option String
  gpu_count : Nat
  storage_id : String
  volume_mount_path : String
  ports : String
  container_disk_size_gb : Nat
  env_vars : List (String × String)
deriving Repr, DecidableEq

/-- The `[runtime]` table of `runpod.toml`. -/
structure RuntimeConfig where
  python_version : String
  handler_path : String
  requirements_path : String
deriving Repr, DecidableEq

/-- The whole project configuration file. -/
structure Config where
  project : ProjectConfig
  runtime : RuntimeConfig
deriving Repr, DecidableEq

/-- Arguments of the `create_template` call made by `create_project_endpoint`. -/
structure TemplateArgs where
  name : String
  image_name : String
  container_disk_in_gb : Nat
  docker_start_cmd : String
  env : List (String × String)
  is_serverless : Bool
deriving Repr, DecidableEq

/-- Arguments of the `create_endpoint` call made by `create_project_endpoint`. -/
structure EndpointArgs where
  name : String
  template_id : String
  network_volume_id : String
deriving Repr, DecidableEq

/-- Externally visible effects of the orchestrator, in issue order.
`deletePodTemplate` is the template-deletion API operation; it is part of the
remote API surface but, as the proofs show, never issued by this code. -/
inductive Event where
  | getProjectPod (uuid : String)
  | deployPod (gpuTypes : List String) (env : List (String × String))
  | getPodStatus (podId : String)
  | sshConnect (podId : String)
  | sshRunCommands (podId : String) (cmds : List String)
  | rsyncDir (src : String) (dst : String)
  | syncDir (src : String) (dst : String)
  | sshClose (podId : String)
  | createPodTemplate (args : TemplateArgs)
  | createPodEndpoint (args : EndpointArgs)
  | deletePodTemplate (templateId : String)
deriving Repr, DecidableEq

/-- The remote collaborators, as oracles.
`projectPod uuid` is `get_project_pod(uuid)` (the id of the pod tagged with
the uuid, if any); `attemptLaunch` is `attempt_pod_launch(config, env)`;
`podAt pid n` is the pod returned by the n-th `get_pod(pid)` poll;
`template`/`endpoint` are `create_template`/`create_endpoint`, returning the
created resource id or raising; `cwd` is `os.getcwd()`. -/
structure World where
  projectPod : String → Option String
  attemptLaunch : Config → List (String × String) → Option Pod
  podAt : String → Nat → Pod
  template : TemplateArgs → Except String String
  endpoint : EndpointArgs → Except String String
  cwd : String

/-- The `environment_variables` dict built by `launch_project` (lines 123-126): a dict
seeded with `RUNPOD_PROJECT_ID ↦ uuid`, then every other key of the config
`env_vars` mapping copied over (the `RUNPOD_PROJECT_ID` key of `env_vars` is skipped). -/
def buildEnvVars (p : ProjectConfig) : List (String × String) :=
  ("RUNPOD_PROJECT_ID", p.uuid) ::
    p.env_vars.filter (fun kv => kv.1 ≠ "RUNPOD_PROJECT_ID")

/-- The `selected_gpu_types` list of `launch_project` (lines 128-130): the
`gpu_types` list of the config with the optional `gpu` field appended. The Python `.append`
mutates the list object held by the config, so this is also the GPU selection
the config carries when `attempt_pod_launch(config, ...)` is called. -/
def selectedGpuTypes (p : ProjectConfig) : List String :=
  p.gpu_types ++ p.gpu.toList

/-- The config as it stands after the in-place `selected_gpu_types.append`
(line 130): its `gpu_types` list is the merged selection. -/
def mergeGpu (c : Config) : Config :=
  { c with project := { c.project with gpu_types := selectedGpuTypes c.project } }

/-- The readiness test of the wait loop (line 141):
`desiredStatus` equal to the RUNNING literal and non-null `runtime`. -/
def podReady (p : Pod) : Bool :=
  p.desiredStatus == some "RUNNING" && p.runtime.isSome

/-- The wait loop of `launch_project` (lines 141-142): while the pod is not
ready, poll `get_pod` on the current pod id again. The Python loop has no bound; the
embedding adds explicit fuel, returning `none` when the fuel runs out, so
that non-termination of the source loop is expressible as `none` for every
fuel. The trace records one `getPodStatus` event per poll. -/
def awaitReadyAux (podAt : String → Nat → Pod) :
    Pod → Nat → Nat → Option Pod × List Event
  | p, _, 0 =>
      if podReady p then (some p, []) else (none, [])
  | p, i, fuel + 1 =>
      if podReady p then (some p, [])
      else
        let p2 := podAt p.id i
        let r := awaitReadyAux podAt p2 (i + 1) fuel
        (r.1, Event.getPodStatus p.id :: r.2)

/-- The wait phase, started at poll index 0. -/
def awaitReady (podAt : String → Nat → Pod) (p : Pod) (fuel : Nat) :
    Option Pod × List Event :=
  awaitReadyAux podAt p 0 fuel

/-- The `project_path_uuid` string (line 149): `{volume_mount_path}/{uuid}`. -/
def projectPathUuid (c : Config) : String :=
  c.project.volume_mount_path ++ "/" ++ c.project.uuid

/-- The `project_path` string (line 150): `{project_path_uuid}/{name}`. -/
def projectPath (c : Config) : String :=
  projectPathUuid c ++ "/" ++ c.project.name

/-- Python `os.path.join` for a relative second component: drop the first component
when empty, append directly when it already ends in a separator, join with a
single separator otherwise. -/
def pathJoin (a b : String) : String :=
  if a = "" then b
  else if a.data.getLast? = some '/' then a ++ b
  else a ++ "/" ++ b

/-- The `venv_path` string (line 158): `os.path.join(project_path_uuid, "venv")`. -/
def venvPath (c : Config) : String :=
  pathJoin (projectPathUuid c) "venv"

/-- The second command batch of the bootstrap (lines 161-167): venv creation,
then activate / cd / pip upgrade / requirements install chained with `&&`
(the Python adjacent-string concatenation puts no space after each `&&`). -/
def bootstrapCommands (c : Config) : List String :=
  [ "python" ++ c.runtime.python_version ++ " -m venv " ++ venvPath c,
    "source " ++ venvPath c ++ "/bin/activate &&" ++
      "cd " ++ projectPath c ++ " &&" ++
      "python -m pip install --upgrade pip &&" ++
      "python -m pip install -r " ++ c.runtime.requirements_path ]

/-- The remote effects of the bootstrap phase of `launch_project`
(lines 147-169): open SSH, `mkdir -p` batch, rsync of the working directory
into `{volume_mount_path}/{uuid}`, then the venv/install batch. -/
def bootstrapEvents (w : World) (c : Config) (pid : String) : List Event :=
  [ Event.sshConnect pid,
    Event.sshRunCommands pid ["mkdir -p " ++ projectPath c],
    Event.rsyncDir w.cwd (projectPathUuid c),
    Event.sshRunCommands pid (bootstrapCommands c) ]

/-- Result of `launch_project`: the "already launched" early return
(line 120), the "GPU unavailable" early return (line 135), fuel exhaustion of
the wait loop (the source blocks forever in this case), or success. -/
inductive LaunchResult where
  | alreadyLaunched
  | gpuUnavailable
  | stillWaiting
  | launched (podId : String)
deriving Repr, DecidableEq

/-- The function `launch_project` (lines 101-169): idempotency guard on
`get_project_pod(uuid)`, env-var and GPU merge, `attempt_pod_launch` on the
merged config (whose `gpu_types` list is `selectedGpuTypes`, recorded in the
`deployPod` event), wait-for-ready poll loop, then the SSH bootstrap. -/
def launch_project (w : World) (c : Config) (fuel : Nat) :
    LaunchResult × List Event :=
  match w.projectPod c.project.uuid with
  | some _ => (LaunchResult.alreadyLaunched, [Event.getProjectPod c.project.uuid])
  | none =>
    match w.attemptLaunch (mergeGpu c) (buildEnvVars c.project) with
    | none =>
        (LaunchResult.gpuUnavailable,
          [Event.getProjectPod c.project.uuid,
           Event.deployPod (selectedGpuTypes c.project) (buildEnvVars c.project)])
    | some pod =>
      match awaitReady w.podAt pod fuel with
      | (none, evs) =>
          (LaunchResult.stillWaiting,
            [Event.getProjectPod c.project.uuid,
             Event.deployPod (selectedGpuTypes c.project) (buildEnvVars c.project)] ++
              evs)
      | (some rpod, evs) =>
          (LaunchResult.launched rpod.id,
            [Event.getProjectPod c.project.uuid,
             Event.deployPod (selectedGpuTypes c.project) (buildEnvVars c.project)] ++
              evs ++ bootstrapEvents w c rpod.id)

/-- Result of `start_project_api`: the `ClickException` raised when no pod is
tagged with the project uuid (line 181), or a completed session run. -/
inductive StartResult where
  | podNotFound (message : String)
  | sessionRan
deriving Repr, DecidableEq

/-- The `remote_project_path` string of `start_project_api` (line 188):
`os.path.join(volume_mount_path, uuid, name)`. -/
def remoteProjectPath (c : Config) : String :=
  pathJoin (pathJoin c.project.volume_mount_path c.project.uuid) c.project.name

/-- The function `start_project_api` (lines 173-283): look up the project pod; if absent,
raise before any SSH connection, sync, or remote command; otherwise connect,
sync the working directory, run the generated supervisory script, and close
the connection. The script text is abstracted by its parameter paths in the
`sshRunCommands` payload. -/
def start_project_api (w : World) (c : Config) : StartResult × List Event :=
  match w.projectPod c.project.uuid with
  | none =>
      (StartResult.podNotFound
        ("Project pod not found for uuid: " ++ c.project.uuid ++
          ". Try running \"runpod project launch\" first."),
        [Event.getProjectPod c.project.uuid])
  | some pid =>
      (StartResult.sessionRan,
        [Event.getProjectPod c.project.uuid,
         Event.sshConnect pid,
         Event.syncDir w.cwd (pathJoin c.project.volume_mount_path c.project.uuid),
         Event.sshRunCommands pid
           ["launch_api_server " ++ remoteProjectPath c],
         Event.sshClose pid])

/-- The `activate_cmd` string of `create_project_endpoint` (line 300),
`. /runpod-volume/<uuid>/venv/bin/activate` — note the hard-coded
`/runpod-volume` root, not the config mount path. -/
def activate_cmd (c : Config) : String :=
  ". " ++ "/runpod-volume" ++ "/" ++ c.project.uuid ++ "/" ++ "venv" ++
    "/bin/activate"

/-- The `python_cmd` string of `create_project_endpoint` (line 301),
`python -u /runpod-volume/<uuid>/<name>/<handler_path>` — also under the
hard-coded `/runpod-volume` root. -/
def python_cmd (c : Config) : String :=
  "python -u " ++ "/runpod-volume" ++ "/" ++ c.project.uuid ++ "/" ++
    c.project.name ++ "/" ++ c.runtime.handler_path

/-- The `docker_start_cmd` string (lines 299-303): the activate and handler
commands chained inside a `bash -c` wrapper. -/
def docker_start_cmd (c : Config) : String :=
  "bash -c \"" ++ activate_cmd c ++ " && " ++ python_cmd c ++ "\""

/-- The template-creation arguments of `create_project_endpoint`
(lines 305-311). The env mapping is the `env_vars` of the config, verbatim
(lines 294-296). -/
def endpointTemplateArgs (c : Config) : TemplateArgs :=
  { name := c.project.name ++ "-endpoint | " ++ c.project.uuid,
    image_name := c.project.base_image,
    container_disk_in_gb := c.project.container_disk_size_gb,
    docker_start_cmd := docker_start_cmd c,
    env := c.project.env_vars,
    is_serverless := true }

/-- The endpoint-creation arguments (lines 313-317), referencing the created
id of the created template and the storage volume of the config. -/
def endpointArgs (c : Config) (templateId : String) : EndpointArgs :=
  { name := c.project.name ++ "-endpoint | " ++ c.project.uuid,
    template_id := templateId,
    network_volume_id := c.project.storage_id }

/-- The function `create_project_endpoint` (lines 287-319): template creation, then
endpoint creation from the returned template id; a failing call propagates
(Python exception) and nothing after it runs — in particular no template
deletion is ever issued. -/
def create_project_endpoint (w : World) (c : Config) :
    Except String String × List Event :=
  match w.template (endpointTemplateArgs c) with
  | Except.error e =>
      (Except.error e, [Event.createPodTemplate (endpointTemplateArgs c)])
  | Except.ok tid =>
    match w.endpoint (endpointArgs c tid) with
    | Except.error e =>
        (Except.error e,
          [Event.createPodTemplate (endpointTemplateArgs c),
           Event.createPodEndpoint (endpointArgs c tid)])
    | Except.ok eid =>
        (Except.ok eid,
          [Event.createPodTemplate (endpointTemplateArgs c),
           Event.createPodEndpoint (endpointArgs c tid)])

/-- The config document written by `create_new_project` (lines 63-97),
restricted to the tables the orchestrator reads back. `gpu` is not written,
and `env_vars` is exactly the project-id binding. -/
def createNewProjectConfig (project_name runpod_volume_id python_version
    project_uuid : String) : Config :=
  { project :=
      { uuid := project_uuid,
        name := project_name,
        base_image := "runpod/base:0.2.1",
        gpu_types :=
          ["NVIDIA RTX A4000", "NVIDIA RTX A4500", "NVIDIA RTX A5000",
           "NVIDIA GeForce RTX 3090", "NVIDIA RTX A6000"],
        gpu := none,
        gpu_count := 1,
        storage_id := runpod_volume_id,
        volume_mount_path := "/runpod-volume",
        ports := "8080/http, 22/tcp",
        container_disk_size_gb := 10,
        env_vars := [("RUNPOD_PROJECT_ID", project_uuid)] },
    runtime :=
      { python_version := python_version,
        handler_path := "src/handler.py",
        requirements_path := "builder/requirements.txt" } }

/-! ### The generated supervisory shell script

`start_project_api` ships a literal bash script to the pod (lines 195-278).
Its algorithmic fragments are embedded below: the `.runpodignore` →
exclude-pattern loop (lines 240-248) and the `force_kill` / `cleanup`
process management (lines 198-224), the latter against a mock process
semantics (a process either responds to the graceful signal or ignores it;
SIGKILL always terminates it; signalling a dead process does nothing). -/

/-- A whitespace character of the tr deletion class used at line 243. -/
def isSpaceChar (c : Char) : Bool :=
  c = ' ' || c = '\t' || c = '\n' || c = '\r' || c = '\x0b' || c = '\x0c'

/-- Line 243 of the script, a tr -d deletion: remove every whitespace
character of the line. -/
def stripSpace (s : String) : String :=
  String.mk (s.data.filter (fun c => !isSpaceChar c))

/-- The skip test of line 244: after stripping, the line is a comment
(`^#.*$`) or empty. -/
def skipIgnoreLine (s : String) : Bool :=
  s.startsWith "#" || s = ""

/-- The always-present exclude pattern initialised at line 240. -/
def baseExcludePattern : String := "(__pycache__|\\.pyc$)"

/-- One iteration of the `.runpodignore` read loop (lines 242-246): strip the
line; skip comments and blanks; otherwise append `|(<line>)`. -/
def ignoreLineStep (acc : String) (line : String) : String :=
  let line := stripSpace line
  if skipIgnoreLine line then acc else acc ++ "|(" ++ line ++ ")"

/-- The whole loop: the exclude pattern built from the `.runpodignore` lines
in file order. -/
def buildExcludePattern (lines : List String) : String :=
  lines.foldl ignoreLineStep baseExcludePattern

/-- The OR-ed fragment a kept line contributes. -/
def orFragment (line : String) : String := "|(" ++ line ++ ")"

/-- The lines that survive the skip test, stripped, in file order. -/
def activeIgnoreLines (lines : List String) : List String :=
  (lines.map stripSpace).filter (fun l => !skipIgnoreLine l)

/-- The mock process the kill logic of the script is verified against: alive and
terminated by the graceful signal, alive but ignoring it (only SIGKILL
works), or already stopped. -/
inductive ProcState where
  | aliveCooperative
  | aliveStubborn
  | stopped
deriving Repr, DecidableEq

/-- The graceful signal, line 199 of the script (kill with stderr suppressed); a stubborn process
survives it, a dead process is unaffected (the error is suppressed and the
script continues). -/
def sigTerm : ProcState → ProcState
  | ProcState.aliveCooperative => ProcState.stopped
  | ProcState.aliveStubborn => ProcState.aliveStubborn
  | ProcState.stopped => ProcState.stopped

/-- The forced signal, line 204 of the script: SIGKILL terminates any process. -/
def sigKill : ProcState → ProcState
  | _ => ProcState.stopped

/-- The liveness probe, lines 202 and 207 of the script (ps -p): is the process alive. -/
def procAlive : ProcState → Bool
  | ProcState.aliveCooperative => true
  | ProcState.aliveStubborn => true
  | ProcState.stopped => false

/-- Outcome of `force_kill`: the graceful path, the SIGKILL path (after the
1-second grace the process was still alive), or the `exit 1` failure path
(unreachable under the mock semantics, since SIGKILL always works). -/
inductive KillOutcome where
  | killedGraceful
  | killedForced
  | failedExit1
deriving Repr, DecidableEq

/-- The `force_kill` function of the script (lines 198-217): graceful signal, 1-second grace, re-check;
if still alive, SIGKILL, grace, re-verify; report the path taken. -/
def force_kill (p : ProcState) : ProcState × KillOutcome :=
  let p1 := sigTerm p
  if procAlive p1 then
    let p2 := sigKill p1
    if procAlive p2 then (p2, KillOutcome.failedExit1)
    else (p2, KillOutcome.killedForced)
  else (p1, KillOutcome.killedGraceful)

/-- The `cleanup` function of the script (lines 219-222), installed as the EXIT trap (line 224):
on session exit from any cause, run `force_kill` on the last spawned
handler pid. -/
def cleanup (p : ProcState) : ProcState × KillOutcome :=
  force_kill p

/-! ### Observation helpers and concrete fixtures -/

/-- Lookup in an environment-variable mapping, first match wins (the
observable behaviour of a Python dict built left to right with distinct
keys). -/
def lookupEnv (k : String) : List (String × String) → Option String
  | [] => none
  | (a, v) :: rest => if k = a then some v else lookupEnv k rest

/-- Concatenation of the OR-ed fragments contributed by a list of kept
ignore lines. -/
def concatFragments : List String → String
  | [] => ""
  | l :: ls => orFragment l ++ concatFragments ls

/-- The remote command batches of a trace: one entry per `run_commands`
call, with the pod id and the list of commands of the batch. -/
def remoteBatches (evs : List Event) : List (String × List String) :=
  evs.filterMap (fun e =>
    match e with
    | Event.sshRunCommands pid cmds => some (pid, cmds)
    | _ => none)

/-- A sample configuration, exactly as `create_new_project` writes it. -/
def cSample : Config :=
  createNewProjectConfig "hello" "vol1" "3.10" "abc12345"

/-- The sample configuration with a non-default volume mount path. -/
def cAltMount : Config :=
  { cSample with
      project := { cSample.project with volume_mount_path := "/vol" } }

/-- The sample configuration with the optional single `gpu` field set. -/
def cGpu : Config :=
  { cSample with
      project := { cSample.project with gpu := some "NVIDIA A100" } }

/-- A project table whose `env_vars` carries a conflicting value for the
`RUNPOD_PROJECT_ID` key next to an ordinary variable. -/
def pOverride : ProjectConfig :=
  { cSample.project with
      env_vars := [("RUNPOD_PROJECT_ID", "evil"), ("FOO", "bar")] }

/-- A pod that is already running. -/
def readyPod : Pod :=
  { id := "pod-1", desiredStatus := some "RUNNING", runtime := some () }

/-- A pod that never reports readiness. -/
def pendingPod : Pod :=
  { id := "pod-1", desiredStatus := some "PENDING", runtime := none }

/-- A baseline world: no pre-existing pod, launches succeed and come up
running, template and endpoint creation succeed. -/
def wBase : World :=
  { projectPod := fun _ => none,
    attemptLaunch := fun _ _ => some readyPod,
    podAt := fun pid _ =>
      { id := pid, desiredStatus := some "RUNNING", runtime := some () },
    template := fun _ => Except.ok "tmpl-1",
    endpoint := fun _ => Except.ok "ep-1",
    cwd := "/home/dev/hello" }

/-- A world in which a pod tagged with every uuid already exists. -/
def wAlready : World :=
  { wBase with projectPod := fun _ => some "pod-0" }

/-- A world whose pods never become ready. -/
def wNeverReady : World :=
  { wBase with
      attemptLaunch := fun _ _ => some pendingPod,
      podAt := fun pid _ =>
        { id := pid, desiredStatus := some "PENDING", runtime := none } }

/-- A world in which template creation fails. -/
def wTemplateFail : World :=
  { wBase with template := fun _ => Except.error "template rejected" }

/-- A world in which endpoint creation fails. -/
def wEndpointFail : World :=
  { wBase with endpoint := fun _ => Except.error "endpoint rejected" }

/-! ### Helper lemmas -/

/-- If every polled pod is unready and the current pod is unready, the wait
loop never produces a pod, whatever the fuel. -/
theorem awaitReadyAux_none (podAt : String → Nat → Pod)
    (hall : ∀ s n, podReady (podAt s n) = false) :
    ∀ (fuel : Nat) (p : Pod) (i : Nat), podReady p = false →
      (awaitReadyAux podAt p i fuel).1 = none := by
  intro fuel
  induction fuel with
  | zero => intro p i hp; simp [awaitReadyAux, hp]
  | succ n ih => intro p i hp; simp [awaitReadyAux, hp]; exact ih _ _ (hall _ _)

/-- A pod produced by the wait loop passed the readiness test. -/
theorem awaitReadyAux_sound (podAt : String → Nat → Pod) :
    ∀ (fuel : Nat) (p : Pod) (i : Nat) (q : Pod),
      (awaitReadyAux podAt p i fuel).1 = some q → podReady q = true := by
  intro fuel
  induction fuel with
  | zero =>
      intro p i q h
      by_cases hp : podReady p
      · simp [awaitReadyAux, hp] at h; exact h ▸ hp
      · simp [awaitReadyAux, hp] at h
  | succ n ih =>
      intro p i q h
      by_cases hp : podReady p
      · simp [awaitReadyAux, hp] at h; exact h ▸ hp
      · simp [awaitReadyAux, hp] at h; exact ih _ _ _ h

/-- Under the no-existing-pod guard, the trace of `launch_project` starts
with the idempotency lookup followed by the deploy attempt carrying the
merged GPU selection and the rebuilt environment mapping. -/
theorem launch_project_trace_noPod (w : World) (c : Config) (fuel : Nat)
    (h : w.projectPod c.project.uuid = none) :
    ∃ rest, (launch_project w c fuel).2 =
      Event.getProjectPod c.project.uuid ::
        Event.deployPod (selectedGpuTypes c.project) (buildEnvVars c.project) ::
          rest := by
  unfold launch_project
  rw [h]
  cases hA : w.attemptLaunch (mergeGpu c) (buildEnvVars c.project) with
  | none => exact ⟨[], rfl⟩
  | some pod =>
      dsimp only
      rcases hW : awaitReady w.podAt pod fuel with ⟨o, evs⟩
      cases o with
      | none => exact ⟨evs, rfl⟩
      | some rpod => exact ⟨evs ++ bootstrapEvents w c rpod.id, rfl⟩

/-! ### Claims -/

/-- C1. Launch idempotency: when a pod tagged with the config uuid already
exists, `launch_project` returns the already-launched signal and its only
effect is the idempotency lookup itself — no deploy mutation
(`attempt_pod_launch`) and no remote command is issued. -/
theorem launch_project_idempotent (w : World) (c : Config) (fuel : Nat)
    (pid : String) (h : w.projectPod c.project.uuid = some pid) :
    launch_project w c fuel =
      (LaunchResult.alreadyLaunched, [Event.getProjectPod c.project.uuid]) := by
  unfold launch_project
  rw [h]

/-- Witness for C1 at a concrete world and config. -/
theorem launch_project_idempotent_witness :
    launch_project wAlready cSample 3 =
      (LaunchResult.alreadyLaunched,
        [Event.getProjectPod cSample.project.uuid]) :=
  launch_project_idempotent wAlready cSample 3 "pod-0" rfl

/-- C2. Dev-server cleanup: the cleanup trap of the generated supervisory
script never leaves the handler process alive (graceful signal, then a
forced kill when the graceful signal leaves it alive, then re-verify);
running it against an already-stopped process leaves the process state
unchanged and reports success rather than the failure exit; the failure
exit is never taken. -/
theorem dev_server_cleanup_terminates :
    (∀ p, procAlive (cleanup p).1 = false) ∧
    cleanup ProcState.stopped = (ProcState.stopped, KillOutcome.killedGraceful) ∧
    cleanup ProcState.aliveStubborn =
      (ProcState.stopped, KillOutcome.killedForced) ∧
    cleanup ProcState.aliveCooperative =
      (ProcState.stopped, KillOutcome.killedGraceful) ∧
    (∀ p, (cleanup p).2 = KillOutcome.killedGraceful ∨
      (cleanup p).2 = KillOutcome.killedForced) :=
  ⟨fun p => by cases p <;> rfl, rfl, rfl, rfl, fun p => by cases p <;> decide⟩

/-- C3. Pod readiness wait: the wait loop returns a pod only when it passed
the readiness test (`desiredStatus` RUNNING and non-null `runtime`), and if
no polled pod ever satisfies it, `launch_project` stays in the waiting state
for every fuel bound — the source loop, which has no timeout, never exits. -/
theorem launch_project_wait_for_ready (w : World) (c : Config) :
    (∀ (fuel : Nat) (p : Pod) (i : Nat) (q : Pod),
      (awaitReadyAux w.podAt p i fuel).1 = some q →
        q.desiredStatus = some "RUNNING" ∧ q.runtime ≠ none) ∧
    ((∀ s n, podReady (w.podAt s n) = false) →
      ∀ pod : Pod, w.projectPod c.project.uuid = none →
        w.attemptLaunch (mergeGpu c) (buildEnvVars c.project) = some pod →
        podReady pod = false →
        ∀ fuel : Nat,
          (launch_project w c fuel).1 = LaunchResult.stillWaiting) := by
  constructor
  · intro fuel p i q h
    have hq := awaitReadyAux_sound w.podAt fuel p i q h
    unfold podReady at hq
    rcases Bool.and_eq_true_iff.mp hq with ⟨h1, h2⟩
    refine ⟨eq_of_beq h1, ?_⟩
    cases hq2 : q.runtime with
    | none => rw [hq2] at h2; simp [Option.isSome] at h2
    | some u => simp
  · intro hall pod hnone hl hready fuel
    have hn : (awaitReady w.podAt pod fuel).1 = none :=
      awaitReadyAux_none w.podAt hall fuel pod 0 hready
    unfold launch_project
    rw [hnone, hl]
    dsimp only
    rcases hW : awaitReady w.podAt pod fuel with ⟨o, evs⟩
    rw [hW] at hn
    simp at hn
    subst hn
    rfl

/-- Witness for C3: in a world whose pods never become ready, a concrete
launch is still waiting after five polls. -/
theorem launch_project_wait_for_ready_witness :
    (launch_project wNeverReady cSample 5).1 = LaunchResult.stillWaiting :=
  (launch_project_wait_for_ready wNeverReady cSample).2
    (fun _ _ => rfl) pendingPod rfl rfl rfl 5

/-- For a nonempty uuid that does not end in a path separator, the venv path
of the bootstrap is the plain concatenation `{volume_mount_path}/{uuid}/venv`. -/
theorem venvPath_eq (c : Config) (hu : c.project.uuid ≠ "")
    (hs : c.project.uuid.data.getLast? ≠ some '/') :
    venvPath c = projectPathUuid c ++ "/" ++ "venv" := by
  have hud : c.project.uuid.data ≠ [] := fun hnil => hu (String.ext hnil)
  have hdata : (projectPathUuid c).data =
      c.project.volume_mount_path.data ++ ("/" : String).data ++
        c.project.uuid.data := by
    simp [projectPathUuid, String.data_append]
  have hne : projectPathUuid c ≠ "" := by
    intro hemp
    have hd : (projectPathUuid c).data = [] := by rw [hemp]
    rw [hdata] at hd
    rcases List.append_eq_nil.mp hd with ⟨-, h2⟩
    exact hud h2
  have hlast : (projectPathUuid c).data.getLast? =
      c.project.uuid.data.getLast? := by
    rw [hdata]
    exact List.getLast?_append_of_ne_nil _ hud
  unfold venvPath pathJoin
  rw [if_neg hne, if_neg (by rw [hlast]; exact hs)]

/-- C4 (counterexample). With a non-default volume mount path the container
start command does not activate the venv the bootstrap created at
`{volume_mount_path}/{uuid}/venv`: the promoter hard-codes `/runpod-volume`. -/
theorem promote_venv_mismatch_cex :
    ¬ (activate_cmd cAltMount =
        ". " ++ venvPath cAltMount ++ "/bin/activate") := by
  decide

/-- C4 (amended). For configs whose volume mount path is the default
`/runpod-volume` (the only value `create_new_project` ever writes) and whose
uuid is a nonempty name without a trailing separator, the container start
command built by the promoter activates the venv that the bootstrap created
at `{volume_mount_path}/{uuid}/venv` and then launches the configured
handler from the bootstrapped project directory. -/
theorem promote_activates_bootstrap_venv (c : Config)
    (h : c.project.volume_mount_path = "/runpod-volume")
    (hu : c.project.uuid ≠ "")
    (hs : c.project.uuid.data.getLast? ≠ some '/') :
    activate_cmd c = ". " ++ venvPath c ++ "/bin/activate" ∧
    python_cmd c =
      "python -u " ++ projectPath c ++ "/" ++ c.runtime.handler_path ∧
    docker_start_cmd c =
      "bash -c \"" ++ (". " ++ venvPath c ++ "/bin/activate") ++ " && " ++
        ("python -u " ++ projectPath c ++ "/" ++ c.runtime.handler_path) ++
        "\"" := by
  have hv := venvPath_eq c hu hs
  have h1 : activate_cmd c = ". " ++ venvPath c ++ "/bin/activate" := by
    rw [hv]
    unfold activate_cmd projectPathUuid
    rw [h]
    simp only [String.append_assoc]
  have h2 : python_cmd c =
      "python -u " ++ projectPath c ++ "/" ++ c.runtime.handler_path := by
    unfold python_cmd projectPath projectPathUuid
    rw [h]
    simp only [String.append_assoc]
  refine ⟨h1, h2, ?_⟩
  unfold docker_start_cmd
  rw [h1, h2]

/-- Witness for the amended C4 at the configuration written by
`create_new_project`. -/
theorem promote_activates_bootstrap_venv_witness :
    activate_cmd cSample = ". " ++ venvPath cSample ++ "/bin/activate" :=
  (promote_activates_bootstrap_venv cSample rfl (by decide) (by decide)).1

/-- C5. Promote ordering and no rollback: `create_project_endpoint` calls
template creation first; on template failure the error propagates and no
endpoint creation is attempted; on template success the endpoint creation
references exactly the returned template id and the storage volume of the
config, the created endpoint id is returned, an endpoint failure propagates,
and in no case is a template deletion (rollback) ever issued. -/
theorem create_project_endpoint_order (w : World) (c : Config) :
    (∀ e, w.template (endpointTemplateArgs c) = Except.error e →
      create_project_endpoint w c =
        (Except.error e, [Event.createPodTemplate (endpointTemplateArgs c)])) ∧
    (∀ tid, w.template (endpointTemplateArgs c) = Except.ok tid →
      (create_project_endpoint w c).2 =
        [Event.createPodTemplate (endpointTemplateArgs c),
         Event.createPodEndpoint (endpointArgs c tid)] ∧
      (endpointArgs c tid).template_id = tid ∧
      (endpointArgs c tid).network_volume_id = c.project.storage_id ∧
      (∀ eid, w.endpoint (endpointArgs c tid) = Except.ok eid →
        (create_project_endpoint w c).1 = Except.ok eid) ∧
      (∀ e, w.endpoint (endpointArgs c tid) = Except.error e →
        (create_project_endpoint w c).1 = Except.error e)) ∧
    (∀ tmplId, Event.deletePodTemplate tmplId ∉ (create_project_endpoint w c).2) := by
  refine ⟨?_, ?_, ?_⟩
  · intro e he
    unfold create_project_endpoint
    rw [he]
  · intro tid ht
    unfold create_project_endpoint
    rw [ht]
    dsimp only
    refine ⟨?_, rfl, rfl, ?_, ?_⟩
    · cases hE : w.endpoint (endpointArgs c tid) <;> rfl
    · intro eid he
      rw [he]
    · intro e he
      rw [he]
  · intro tmplId hmem
    unfold create_project_endpoint at hmem
    cases hT : w.template (endpointTemplateArgs c) with
    | error e =>
        rw [hT] at hmem
        simp at hmem
    | ok tid =>
        rw [hT] at hmem
        dsimp only at hmem
        cases hE : w.endpoint (endpointArgs c tid) with
        | error e =>
            rw [hE] at hmem
            simp at hmem
        | ok eid =>
            rw [hE] at hmem
            simp at hmem

/-- Witness for C5: a successful promote, a failing template creation, and a
failing endpoint creation, at concrete worlds. -/
theorem create_project_endpoint_order_witness :
    create_project_endpoint wTemplateFail cSample =
      (Except.error "template rejected",
        [Event.createPodTemplate (endpointTemplateArgs cSample)]) ∧
    (create_project_endpoint wBase cSample).1 = Except.ok "ep-1" ∧
    (create_project_endpoint wEndpointFail cSample).1 =
      Except.error "endpoint rejected" :=
  ⟨(create_project_endpoint_order wTemplateFail cSample).1 "template rejected" rfl,
   ((create_project_endpoint_order wBase cSample).2.1 "tmpl-1" rfl).2.2.2.1
     "ep-1" rfl,
   ((create_project_endpoint_order wEndpointFail cSample).2.1 "tmpl-1" rfl).2.2.2.2
     "endpoint rejected" rfl⟩

/-- C6 (counterexample). At a concrete successful launch the bootstrap is
issued as two separate remote command batches (with the rsync copy between
them), not as a single remote command batch. -/
theorem launch_bootstrap_not_single_batch_cex :
    (remoteBatches (launch_project wBase cSample 3).2).length = 2 ∧
    ¬ (remoteBatches (launch_project wBase cSample 3).2).length = 1 := by
  decide

/-- C6 (amended). After the pod is ready, `launch_project` issues, in order:
a first command batch creating `{volume_mount_path}/{uuid}/{name}`, an rsync
of the local tree into `{volume_mount_path}/{uuid}`, and a second command
batch that creates the venv with the configured python version and then, in
one chained command, upgrades pip and installs the configured requirements
file — an ordered sequence of three remote operations, not one batch. -/
theorem launch_project_bootstrap_sequence (w : World) (c : Config) (fuel : Nat)
    (pod rpod : Pod) (evs : List Event)
    (h : w.projectPod c.project.uuid = none)
    (hl : w.attemptLaunch (mergeGpu c) (buildEnvVars c.project) = some pod)
    (hw : awaitReady w.podAt pod fuel = (some rpod, evs)) :
    launch_project w c fuel =
      (LaunchResult.launched rpod.id,
        [Event.getProjectPod c.project.uuid,
         Event.deployPod (selectedGpuTypes c.project) (buildEnvVars c.project)] ++
          evs ++
          [Event.sshConnect rpod.id,
           Event.sshRunCommands rpod.id ["mkdir -p " ++ projectPath c],
           Event.rsyncDir w.cwd (projectPathUuid c),
           Event.sshRunCommands rpod.id
             ["python" ++ c.runtime.python_version ++ " -m venv " ++ venvPath c,
              "source " ++ venvPath c ++ "/bin/activate &&" ++
                "cd " ++ projectPath c ++ " &&" ++
                "python -m pip install --upgrade pip &&" ++
                "python -m pip install -r " ++ c.runtime.requirements_path]]) := by
  unfold launch_project
  rw [h, hl]
  dsimp only
  rw [hw]
  rfl

/-- Witness for the amended C6 at a concrete world and config. -/
theorem launch_project_bootstrap_sequence_witness :
    launch_project wBase cSample 3 =
      (LaunchResult.launched readyPod.id,
        [Event.getProjectPod cSample.project.uuid,
         Event.deployPod (selectedGpuTypes cSample.project)
           (buildEnvVars cSample.project)] ++
          [] ++
          [Event.sshConnect readyPod.id,
           Event.sshRunCommands readyPod.id ["mkdir -p " ++ projectPath cSample],
           Event.rsyncDir wBase.cwd (projectPathUuid cSample),
           Event.sshRunCommands readyPod.id
             ["python" ++ cSample.runtime.python_version ++ " -m venv " ++
                venvPath cSample,
              "source " ++ venvPath cSample ++ "/bin/activate &&" ++
                "cd " ++ projectPath cSample ++ " &&" ++
                "python -m pip install --upgrade pip &&" ++
                "python -m pip install -r " ++
                cSample.runtime.requirements_path]]) :=
  launch_project_bootstrap_sequence wBase cSample 3 readyPod readyPod []
    rfl rfl rfl

/-- A key other than the project-id key reads the same through the
environment rebuild filter. -/
theorem lookupEnv_filter_ne (l : List (String × String)) (k : String)
    (hk : k ≠ "RUNPOD_PROJECT_ID") :
    lookupEnv k (l.filter (fun kv => kv.1 ≠ "RUNPOD_PROJECT_ID")) =
      lookupEnv k l := by
  induction l with
  | nil => rfl
  | cons a t ih =>
      obtain ⟨ka, va⟩ := a
      simp only [decide_not] at ih
      by_cases ha : ka = "RUNPOD_PROJECT_ID"
      · simp [List.filter_cons, ha, lookupEnv, hk, ih]
      · simp [List.filter_cons, ha, lookupEnv, ih]

/-- C7. Project-id environment invariant: the environment mapping submitted
with the pod deploy always binds RUNPOD_PROJECT_ID to the config uuid, even
when the config `env_vars` carries a different value for that key; every
other key reads through unchanged; the deploy event of a fresh launch
carries exactly this rebuilt mapping; and the config written by
`create_new_project` contains the RUNPOD_PROJECT_ID = uuid binding. -/
theorem project_id_env_invariant :
    (∀ p : ProjectConfig,
      lookupEnv "RUNPOD_PROJECT_ID" (buildEnvVars p) = some p.uuid) ∧
    (∀ (p : ProjectConfig) (k : String), k ≠ "RUNPOD_PROJECT_ID" →
      lookupEnv k (buildEnvVars p) = lookupEnv k p.env_vars) ∧
    (∀ (w : World) (c : Config) (fuel : Nat),
      w.projectPod c.project.uuid = none →
      ∃ g, (launch_project w c fuel).2.get? 1 =
        some (Event.deployPod g (buildEnvVars c.project))) ∧
    (∀ n v pv u : String,
      lookupEnv "RUNPOD_PROJECT_ID"
        (createNewProjectConfig n v pv u).project.env_vars = some u) := by
  refine ⟨fun p => rfl, ?_, ?_, fun n v pv u => rfl⟩
  · intro p k hk
    simp only [buildEnvVars, lookupEnv]
    rw [if_neg hk]
    exact lookupEnv_filter_ne p.env_vars k hk
  · intro w c fuel h
    obtain ⟨rest, hr⟩ := launch_project_trace_noPod w c fuel h
    exact ⟨selectedGpuTypes c.project, by rw [hr]; rfl⟩

/-- Witness for C7: a conflicting RUNPOD_PROJECT_ID entry is overridden, an
ordinary key reads through, a concrete fresh launch submits the rebuilt
mapping, and a freshly written config carries the binding. -/
theorem project_id_env_invariant_witness :
    lookupEnv "RUNPOD_PROJECT_ID" (buildEnvVars pOverride) =
      some pOverride.uuid ∧
    lookupEnv "FOO" (buildEnvVars pOverride) =
      lookupEnv "FOO" pOverride.env_vars ∧
    (∃ g, (launch_project wBase cSample 3).2.get? 1 =
      some (Event.deployPod g (buildEnvVars cSample.project))) ∧
    lookupEnv "RUNPOD_PROJECT_ID"
      (createNewProjectConfig "n" "v" "3.11" "u-123").project.env_vars =
      some "u-123" :=
  ⟨project_id_env_invariant.1 pOverride,
   project_id_env_invariant.2.1 pOverride "FOO" (by decide),
   project_id_env_invariant.2.2.1 wBase cSample 3 rfl,
   project_id_env_invariant.2.2.2 "n" "v" "3.11" "u-123"⟩

/-- C8. GPU selection merge: when no pod exists yet, the deploy attempt of
`launch_project` carries the config gpu_types list with the optional single
gpu field appended. -/
theorem launch_project_gpu_merge (w : World) (c : Config) (fuel : Nat)
    (h : w.projectPod c.project.uuid = none) :
    ∃ rest, (launch_project w c fuel).2 =
      Event.getProjectPod c.project.uuid ::
        Event.deployPod (c.project.gpu_types ++ c.project.gpu.toList)
          (buildEnvVars c.project) :: rest :=
  launch_project_trace_noPod w c fuel h

/-- Witness for C8 at a config carrying the optional gpu field. -/
theorem launch_project_gpu_merge_witness :
    ∃ rest, (launch_project wBase cGpu 3).2 =
      Event.getProjectPod cGpu.project.uuid ::
        Event.deployPod (cGpu.project.gpu_types ++ cGpu.project.gpu.toList)
          (buildEnvVars cGpu.project) :: rest :=
  launch_project_gpu_merge wBase cGpu 3 rfl

/-- Folding the ignore-file loop from any accumulator appends exactly the
OR-ed fragments of the kept lines, in file order. -/
theorem ignoreLineStep_fold (lines : List String) :
    ∀ acc : String, lines.foldl ignoreLineStep acc =
      acc ++ concatFragments (activeIgnoreLines lines) := by
  induction lines with
  | nil =>
      intro acc
      simp [activeIgnoreLines, concatFragments, String.append_empty]
  | cons l t ih =>
      intro acc
      by_cases hskip : skipIgnoreLine (stripSpace l) = true
      · simp [List.foldl_cons, ignoreLineStep, hskip, activeIgnoreLines,
              concatFragments, ih]
      · simp [List.foldl_cons, ignoreLineStep, hskip, activeIgnoreLines,
              concatFragments, orFragment, ih, String.append_assoc]

/-- C9. Ignore-file parsing: comment lines and blank lines contribute no
pattern, and each remaining line contributes exactly one OR-ed fragment,
in file order, appended to the always-present exclude pattern. -/
theorem ignore_file_one_fragment_per_line (lines : List String) :
    buildExcludePattern lines =
      baseExcludePattern ++ concatFragments (activeIgnoreLines lines) :=
  ignoreLineStep_fold lines baseExcludePattern

/-- C10. Start requires a launched pod: when no pod is tagged with the
config uuid, `start_project_api` raises the user-facing exception directing
to launch first, and its only effect is the pod lookup — no SSH connection,
no file sync, no remote command. -/
theorem start_project_api_requires_pod (w : World) (c : Config)
    (h : w.projectPod c.project.uuid = none) :
    start_project_api w c =
      (StartResult.podNotFound
        ("Project pod not found for uuid: " ++ c.project.uuid ++
          ". Try running \"runpod project launch\" first."),
        [Event.getProjectPod c.project.uuid]) := by
  unfold start_project_api
  rw [h]

/-- Witness for C10 at a concrete world and config. -/
theorem start_project_api_requires_pod_witness :
    start_project_api wBase cSample =
      (StartResult.podNotFound
        ("Project pod not found for uuid: " ++ cSample.project.uuid ++
          ". Try running \"runpod project launch\" first."),
        [Event.getProjectPod cSample.project.uuid]) :=
  start_project_api_requires_pod wBase cSample rfl
